import Mathlib

/-!
Shallow embedding of the disaster-risk-calculator front end (src/src/App.jsx).

JavaScript numbers that the claims care about (risk scores, odds) are modelled
as rationals; `null`/`undefined` values are modelled by `Option`.  Fallible
network functions become pure functions of an explicit response value that
return `Except String` mirroring `throw new Error(msg)`.  The orchestrator
`handleSearch` is modelled as a state transformer that also returns the list
of network calls it issued, in order.
-/

namespace DisasterRisk

/-- A rating band object as returned by `getRiskRating`.  The five table
entries carry a numeric upper bound `max`; the distinguished "No Data" object
in the source has no `max` property, modelled by `none`. -/
structure RatingBand where
  label : String
  color : String
  bg : String
  max : Option ℚ
deriving DecidableEq

/-- The `RISK_RATINGS` table, App.jsx lines 50-56. -/
def RISK_RATINGS : List RatingBand :=
  [ { label := "Very Low", max := some 15, color := "#4a8c6a", bg := "#eef6f1" },
    { label := "Relatively Low", max := some 30, color := "#6aab7b", bg := "#f0f7f2" },
    { label := "Relatively Moderate", max := some 50, color := "#c4a24d", bg := "#faf6ec" },
    { label := "Relatively High", max := some 70, color := "#c48a4d", bg := "#f9f3ec" },
    { label := "Very High", max := some 100, color := "#b85c4a", bg := "#f7efed" } ]

/-- The "No Data" object returned by `getRiskRating` for absent or negative
scores (App.jsx line 59). -/
def noDataBand : RatingBand :=
  { label := "No Data", color := "#95a5a6", bg := "#f0f0f0", max := none }

/-- The loop test `score <= r.max`; comparison with an absent bound is false
in JavaScript (NaN comparison), which never happens on the table entries. -/
def bandMatches (s : ℚ) (r : RatingBand) : Bool :=
  match r.max with
  | some m => decide (s ≤ m)
  | none => false

/-- Embeds `getRiskRating(score)`, App.jsx lines 58-64: absent or negative score
gives the "No Data" object; otherwise the first table entry whose bound is
at least the score; defensively the last entry if none matches. -/
def getRiskRating : Option ℚ → RatingBand
  | none => noDataBand
  | some s =>
    if s < 0 then noDataBand
    else
      match RISK_RATINGS.find? (bandMatches s) with
      | some r => r
      | none => RISK_RATINGS.getLastD noDataBand

/-- The descriptor returned by `scoreToOdds`; the insufficient-data object in
the source has no `odds` property, modelled by `none`. -/
structure OddsDescriptor where
  text : String
  detail : String
  odds : Option ℚ
deriving DecidableEq

/-- Embeds `scoreToOdds(score, hazardKey)`, App.jsx lines 67-83.  The `hazardKey`
parameter is present in the source but unused by the body. -/
def scoreToOdds (score : Option ℚ) (hazardKey : String) : OddsDescriptor :=
  match score with
  | none => { text := "Insufficient data", detail := "", odds := none }
  | some s =>
    if s < 0 then { text := "Insufficient data", detail := "", odds := none }
    else if s ≤ 5 then
      { text := "< 0.1%", detail := "Less than 1 in 1,000 chance per year", odds := some 0.001 }
    else if s ≤ 15 then
      { text := "~0.1–0.5%", detail := "Roughly 1 in 200 to 1 in 1,000 per year", odds := some 0.003 }
    else if s ≤ 30 then
      { text := "~0.5–2%", detail := "Roughly 1 in 50 to 1 in 200 per year", odds := some 0.01 }
    else if s ≤ 50 then
      { text := "~2–5%", detail := "Roughly 1 in 20 to 1 in 50 per year", odds := some 0.035 }
    else if s ≤ 70 then
      { text := "~5–15%", detail := "Roughly 1 in 7 to 1 in 20 per year", odds := some 0.1 }
    else if s ≤ 85 then
      { text := "~15–30%", detail := "Roughly 1 in 3 to 1 in 7 per year", odds := some 0.225 }
    else
      { text := "> 30%", detail := "Greater than 1 in 3 chance per year", odds := some 0.4 }

/-- The `Response.ok` flag of the fetch API: status in the range 200-299. -/
def isOkStatus (status : Nat) : Bool := 200 ≤ status && status ≤ 299

/-- A FEMA NRI county record as consumed by the app (the record is returned
as-is by `fetchNRIData`; only a representative subset of fields is carried). -/
structure NriRecord where
  county : String
  state : String
  RISK_SCORE : Option ℚ
  ERQK_RISKS : Option ℚ
  HRCN_RISKS : Option ℚ
  TRND_RISKS : Option ℚ
  RFLD_RISKS : Option ℚ
  WFIR_RISKS : Option ℚ
deriving DecidableEq

/-- The body of the FEMA API response: the `NriCountyData` array may be
absent (`!data.NriCountyData`) or empty. -/
structure NriResponse where
  status : Nat
  NriCountyData : Option (List NriRecord)
deriving DecidableEq

/-- The record list of an NRI response, with an absent array read as empty. -/
def nriRecords (resp : NriResponse) : List NriRecord :=
  resp.NriCountyData.getD []

/-- Embeds `fetchNRIData`, App.jsx lines 88-117, as a function of the HTTP response:
non-ok status throws the FEMA status error; an absent or empty record array
throws the no-data error; otherwise the first record is returned. -/
def fetchNRIData (resp : NriResponse) : Except String NriRecord :=
  if !(isOkStatus resp.status) then
    Except.error ("FEMA API error: " ++ toString resp.status)
  else
    match resp.NriCountyData with
    | none => Except.error ("No NRI data found for this county.")
    | some [] => Except.error ("No NRI data found for this county.")
    | some (r :: _) => Except.ok r

/-- A county entry of the Census geocoder geography set. -/
structure GeoCounty where
  STATE : String
  COUNTY : String
  NAME : String
deriving DecidableEq

/-- Coordinates of an address match. -/
structure GeoCoordinates where
  x : ℚ
  y : ℚ
deriving DecidableEq

/-- The geography set of a match; the `Counties` array may be absent. -/
structure GeoGeographies where
  Counties : Option (List GeoCounty)
deriving DecidableEq

/-- Address components of a match; the `state` field may be absent. -/
structure AddressComponents where
  state : Option String
deriving DecidableEq

/-- One address match of the Census geocoder response. -/
structure AddressMatch where
  geographies : Option GeoGeographies
  addressComponents : Option AddressComponents
  coordinates : GeoCoordinates
  matchedAddress : String
deriving DecidableEq

/-- The `result` object of the geocoder response. -/
structure GeoResult where
  addressMatches : Option (List AddressMatch)
deriving DecidableEq

/-- A Census geocoder HTTP response. -/
structure GeoResponse where
  status : Nat
  result : Option GeoResult
deriving DecidableEq

/-- The address-match list of a geocoder response, reading the optional
chain `data?.result?.addressMatches` with an absent array as empty. -/
def geoMatches (resp : GeoResponse) : List AddressMatch :=
  (resp.result.bind (fun r => r.addressMatches)).getD []

/-- The county list of a match, reading `match.geographies?.Counties` with
an absent array as empty. -/
def matchCounties (m : AddressMatch) : List GeoCounty :=
  (m.geographies.bind (fun g => g.Counties)).getD []

/-- The location value returned by `zipToCountyFips` (App.jsx lines 153-160). -/
structure CountyLocation where
  fips : String
  countyName : String
  stateName : Option String
  lat : ℚ
  lng : ℚ
  matchedAddress : String
deriving DecidableEq

/-- Embeds `zipToCountyFips`, App.jsx lines 123-161, as a function of the HTTP
response: non-ok status, absent/empty match list, and absent/empty county
list each throw their own error; otherwise the location is built from the
first address match and the first county of its geography set. -/
def zipToCountyFips (resp : GeoResponse) : Except String CountyLocation :=
  if !(isOkStatus resp.status) then
    Except.error ("Geocoding service unavailable")
  else
    match resp.result.bind (fun r => r.addressMatches) with
    | none =>
      Except.error ("Could not find location for this ZIP code. Please check and try again.")
    | some [] =>
      Except.error ("Could not find location for this ZIP code. Please check and try again.")
    | some (m :: _) =>
      match m.geographies.bind (fun g => g.Counties) with
      | none => Except.error ("Could not determine county for this ZIP code.")
      | some [] => Except.error ("Could not determine county for this ZIP code.")
      | some (county :: _) =>
        Except.ok
          { fips := county.STATE ++ county.COUNTY,
            countyName := county.NAME,
            stateName := m.addressComponents.bind (fun a => a.state),
            lat := m.coordinates.y,
            lng := m.coordinates.x,
            matchedAddress := m.matchedAddress }

/-- JavaScript whitespace removed by `String.prototype.trim`. -/
def isJsWhitespace (c : Char) : Bool :=
  c = ' ' || c = '\t' || c = '\n' || c = '\r' || c = '\x0b' || c = '\x0c'

/-- Embeds `zipCode.trim()`: strip whitespace from both ends. -/
def jsTrim (s : String) : String :=
  (((s.data.dropWhile isJsWhitespace).reverse.dropWhile isJsWhitespace).reverse).asString

/-- The validation regex `/^\d{5}$/`: exactly five ASCII digits. -/
def isFiveDigitZip (s : String) : Bool :=
  s.data.length == 5 && s.data.all Char.isDigit

/-- The ZIP input sanitiser of the text field (App.jsx line 719):
`value.replace(/\D/g, "").slice(0, 5)` — every string the UI can submit to
`handleSearch` has this shape. -/
def sanitizeZipInput (s : String) : String :=
  ((s.data.filter Char.isDigit).take 5).asString

/-- A network call issued by the orchestrator, in issue order. -/
inductive NetCall where
  | geocode (zip : String)
  | nri (fips : String)
deriving DecidableEq

/-- The component state touched by `handleSearch` (App.jsx lines 545-550). -/
structure AppState where
  loading : Bool
  error : Option String
  locationInfo : Option CountyLocation
  nriData : Option NriRecord
  expandedHazard : Option String
  hasSearched : Bool
deriving DecidableEq

/-- Embeds the catch clause fallback `err.message || "An error occurred. Please try again."`:
an empty (falsy) message is replaced by the generic fallback. -/
def errMessage (msg : String) : String :=
  if msg = "" then "An error occurred. Please try again." else msg

/-- Embeds `handleSearch`, App.jsx lines 553-580, over injected resolver and fetcher
oracles.  Returns the final component state and the list of network calls in
issue order.  An input failing the 5-digit validation sets only the error and
returns early; otherwise prior session state is cleared, the resolver runs on
the trimmed input, and on its success the fetcher runs on the resolved FIPS;
a thrown message is surfaced through `errMessage` and `loading` is reset. -/
def handleSearch (resolve : String → Except String CountyLocation)
    (fetchRisk : String → Except String NriRecord)
    (zipCode : String) (s0 : AppState) : AppState × List NetCall :=
  let cleaned := jsTrim zipCode
  if !(isFiveDigitZip cleaned) then
    ({ s0 with error := some ("Please enter a valid 5-digit US ZIP code.") }, [])
  else
    let s1 : AppState :=
      { s0 with loading := true, error := none, nriData := none,
                locationInfo := none, expandedHazard := none, hasSearched := true }
    match resolve cleaned with
    | Except.error msg =>
      ({ s1 with error := some (errMessage msg), loading := false },
       [NetCall.geocode cleaned])
    | Except.ok location =>
      let s2 := { s1 with locationInfo := some location }
      match fetchRisk location.fips with
      | Except.error msg =>
        ({ s2 with error := some (errMessage msg), loading := false },
         [NetCall.geocode cleaned, NetCall.nri location.fips])
      | Except.ok nri =>
        ({ s2 with nriData := some nri, loading := false },
         [NetCall.geocode cleaned, NetCall.nri location.fips])

/-- The submit button is rendered with `disabled={loading}` (App.jsx line
738): whether a click can invoke `handleSearch`. -/
def submitButtonEnabled (loading : Bool) : Bool := !loading

/-- Embeds `handleKeyDown`, App.jsx lines 582-584: whether a keypress invokes
`handleSearch`.  The `loading` flag is in scope in the component but the
handler does not consult it, and the text input is never disabled. -/
def handleKeyDown (loading : Bool) (key : String) : Bool := key == "Enter"

/-! ### Helper lemmas -/

/-- A digit character is not JavaScript whitespace. -/
lemma digit_not_ws {c : Char} (h : c.isDigit = true) : isJsWhitespace c = false := by
  cases hw : isJsWhitespace c
  · rfl
  · exfalso
    unfold isJsWhitespace at hw
    simp only [Bool.or_eq_true, decide_eq_true_eq] at hw
    rcases hw with ((((h1 | h1) | h1) | h1) | h1) | h1 <;> subst h1 <;>
      exact absurd h (by decide)

/-- Dropping leading whitespace is the identity on an all-digit list. -/
lemma dropWhile_ws_of_digits {l : List Char} (h : ∀ c ∈ l, c.isDigit = true) :
    l.dropWhile isJsWhitespace = l := by
  cases l with
  | nil => rfl
  | cons c t =>
    rw [List.dropWhile_cons, digit_not_ws (h c (List.mem_cons_self c t))]
    simp

/-- Trimming is the identity on an all-digit string. -/
lemma jsTrim_of_digits {s : String} (h : ∀ c ∈ s.data, c.isDigit = true) :
    jsTrim s = s := by
  unfold jsTrim
  rw [dropWhile_ws_of_digits h]
  rw [dropWhile_ws_of_digits (fun c hc => h c (List.mem_reverse.mp hc))]
  rw [List.reverse_reverse]
  cases s
  rfl

/-- Every character of a sanitised ZIP input is a digit. -/
lemma sanitize_digits (raw : String) :
    ∀ c ∈ (sanitizeZipInput raw).data, c.isDigit = true := by
  intro c hc
  unfold sanitizeZipInput at hc
  have hc' : c ∈ (raw.data.filter Char.isDigit).take 5 := hc
  have := List.mem_of_mem_take hc'
  exact (List.mem_filter.mp this).2

/-- Trimming a sanitised ZIP input is the identity. -/
lemma jsTrim_sanitize (raw : String) :
    jsTrim (sanitizeZipInput raw) = sanitizeZipInput raw :=
  jsTrim_of_digits (sanitize_digits raw)

/-- A sample NRI record used to instantiate theorems at concrete inputs. -/
def sampleRecord : NriRecord :=
  { county := "Los Angeles", state := "California",
    RISK_SCORE := some 42, ERQK_RISKS := some 42, HRCN_RISKS := none,
    TRND_RISKS := none, RFLD_RISKS := none, WFIR_RISKS := none }

/-- A sample county entry used to instantiate theorems at concrete inputs. -/
def sampleCounty : GeoCounty :=
  { STATE := "06", COUNTY := "037", NAME := "Los Angeles County" }

/-- A sample address match with a county geography. -/
def sampleMatch : AddressMatch :=
  { geographies := some { Counties := some [sampleCounty] },
    addressComponents := some { state := some "CA" },
    coordinates := { x := -118, y := 34 }, matchedAddress := "90210" }

/-- A sample address match without county geography. -/
def sampleMatchNoCounty : AddressMatch :=
  { geographies := some { Counties := some [] },
    addressComponents := some { state := some "CA" },
    coordinates := { x := -118, y := 34 }, matchedAddress := "90210" }

/-- A sample resolved location, as built from `sampleMatch`. -/
def sampleLocation : CountyLocation :=
  { fips := "06037", countyName := "Los Angeles County", stateName := some "CA",
    lat := 34, lng := -118, matchedAddress := "90210" }

/-- A sample successful geocoder response built from `sampleMatch`. -/
def sampleGeoResponse : GeoResponse :=
  { status := 200, result := some { addressMatches := some [sampleMatch] } }

/-- A sample geocoder response with a non-success status. -/
def sampleDownResponse : GeoResponse :=
  { status := 503, result := none }

/-- The FEMA status error message starts with 'F' whatever the status is. -/
lemma fema_head (x : String) :
    ("FEMA API error: " ++ x).data.head? = some 'F' := by
  have hd : ("FEMA API error: " ++ x).data = "FEMA API error: ".data ++ x.data :=
    String.data_append ..
  rw [hd]
  rfl

/-- The FEMA status error message never coincides with the no-data message. -/
lemma femaMsg_ne (n : Nat) :
    ("FEMA API error: " ++ toString n) ≠ "No NRI data found for this county." := by
  intro h
  have hh := fema_head (toString n)
  rw [h] at hh
  exact absurd hh (by decide)

/-! ### Claim theorems -/

/-- Claim C1: for every present risk score `s`, `getRiskRating` returns the
band of the fixed table — `0 ≤ s ≤ 15` gives "Very Low", `15 < s ≤ 30` gives
"Relatively Low", `30 < s ≤ 50` gives "Relatively Moderate", `50 < s ≤ 70`
gives "Relatively High", `70 < s ≤ 100` gives "Very High"; each boundary
value belongs to the lower band, and any score above all bounds also returns
the highest tier "Very High". -/
theorem getRiskRating_bands (s : ℚ) :
    (0 ≤ s → s ≤ 15 →
      getRiskRating (some s) =
        { label := "Very Low", max := some 15, color := "#4a8c6a", bg := "#eef6f1" }) ∧
    (15 < s → s ≤ 30 →
      getRiskRating (some s) =
        { label := "Relatively Low", max := some 30, color := "#6aab7b", bg := "#f0f7f2" }) ∧
    (30 < s → s ≤ 50 →
      getRiskRating (some s) =
        { label := "Relatively Moderate", max := some 50, color := "#c4a24d", bg := "#faf6ec" }) ∧
    (50 < s → s ≤ 70 →
      getRiskRating (some s) =
        { label := "Relatively High", max := some 70, color := "#c48a4d", bg := "#f9f3ec" }) ∧
    (70 < s → s ≤ 100 →
      getRiskRating (some s) =
        { label := "Very High", max := some 100, color := "#b85c4a", bg := "#f7efed" }) ∧
    (100 < s →
      getRiskRating (some s) =
        { label := "Very High", max := some 100, color := "#b85c4a", bg := "#f7efed" }) := by
  refine ⟨?_, ?_, ?_, ?_, ?_, ?_⟩
  · intro h0 h15
    have hneg : ¬ s < 0 := not_lt.mpr h0
    simp [getRiskRating, RISK_RATINGS, bandMatches, List.find?, hneg, h15]
  · intro h15 h30
    have hneg : ¬ s < 0 := by linarith
    have hn15 : ¬ s ≤ 15 := not_le.mpr h15
    simp [getRiskRating, RISK_RATINGS, bandMatches, List.find?, hneg, hn15, h30]
  · intro h30 h50
    have hneg : ¬ s < 0 := by linarith
    have hn15 : ¬ s ≤ 15 := by linarith
    have hn30 : ¬ s ≤ 30 := not_le.mpr h30
    simp [getRiskRating, RISK_RATINGS, bandMatches, List.find?, hneg, hn15, hn30, h50]
  · intro h50 h70
    have hneg : ¬ s < 0 := by linarith
    have hn15 : ¬ s ≤ 15 := by linarith
    have hn30 : ¬ s ≤ 30 := by linarith
    have hn50 : ¬ s ≤ 50 := not_le.mpr h50
    simp [getRiskRating, RISK_RATINGS, bandMatches, List.find?, hneg, hn15, hn30, hn50, h70]
  · intro h70 h100
    have hneg : ¬ s < 0 := by linarith
    have hn15 : ¬ s ≤ 15 := by linarith
    have hn30 : ¬ s ≤ 30 := by linarith
    have hn50 : ¬ s ≤ 50 := by linarith
    have hn70 : ¬ s ≤ 70 := not_le.mpr h70
    simp [getRiskRating, RISK_RATINGS, bandMatches, List.find?, hneg, hn15, hn30, hn50, hn70,
      h100]
  · intro h100
    have hneg : ¬ s < 0 := by linarith
    have hn15 : ¬ s ≤ 15 := by linarith
    have hn30 : ¬ s ≤ 30 := by linarith
    have hn50 : ¬ s ≤ 50 := by linarith
    have hn70 : ¬ s ≤ 70 := by linarith
    have hn100 : ¬ s ≤ 100 := by linarith
    simp [getRiskRating, RISK_RATINGS, bandMatches, List.find?, hneg, hn15, hn30, hn50, hn70,
      hn100]

/-- Witness for C1: the boundary scores 15, 30, 50, 70, 100 fall in their
lower bands and 101 still yields the highest tier. -/
theorem getRiskRating_bands_witness :
    (getRiskRating (some 15)).label = "Very Low" ∧
    (getRiskRating (some 30)).label = "Relatively Low" ∧
    (getRiskRating (some 50)).label = "Relatively Moderate" ∧
    (getRiskRating (some 70)).label = "Relatively High" ∧
    (getRiskRating (some 100)).label = "Very High" ∧
    (getRiskRating (some 101)).label = "Very High" := by
  refine ⟨?_, ?_, ?_, ?_, ?_, ?_⟩
  · exact congrArg RatingBand.label ((getRiskRating_bands 15).1 (by norm_num) (by norm_num))
  · exact congrArg RatingBand.label
      ((getRiskRating_bands 30).2.1 (by norm_num) (by norm_num))
  · exact congrArg RatingBand.label
      ((getRiskRating_bands 50).2.2.1 (by norm_num) (by norm_num))
  · exact congrArg RatingBand.label
      ((getRiskRating_bands 70).2.2.2.1 (by norm_num) (by norm_num))
  · exact congrArg RatingBand.label
      ((getRiskRating_bands 100).2.2.2.2.1 (by norm_num) (by norm_num))
  · exact congrArg RatingBand.label
      ((getRiskRating_bands 101).2.2.2.2.2 (by norm_num))

/-- Claim C2: for every present, non-negative score `s`, `scoreToOdds`
returns the bucket of the fixed 7-threshold table — `s ≤ 5` gives "< 0.1%",
`5 < s ≤ 15` gives "~0.1–0.5%", `15 < s ≤ 30` gives "~0.5–2%", `30 < s ≤ 50`
gives "~2–5%", `50 < s ≤ 70` gives "~5–15%", `70 < s ≤ 85` gives "~15–30%",
and `s > 85` gives "> 30%", each with its fixed detail text and odds value. -/
theorem scoreToOdds_buckets (s : ℚ) (k : String) (h0 : 0 ≤ s) :
    (s ≤ 5 → scoreToOdds (some s) k =
      { text := "< 0.1%", detail := "Less than 1 in 1,000 chance per year",
        odds := some 0.001 }) ∧
    (5 < s → s ≤ 15 → scoreToOdds (some s) k =
      { text := "~0.1–0.5%", detail := "Roughly 1 in 200 to 1 in 1,000 per year",
        odds := some 0.003 }) ∧
    (15 < s → s ≤ 30 → scoreToOdds (some s) k =
      { text := "~0.5–2%", detail := "Roughly 1 in 50 to 1 in 200 per year",
        odds := some 0.01 }) ∧
    (30 < s → s ≤ 50 → scoreToOdds (some s) k =
      { text := "~2–5%", detail := "Roughly 1 in 20 to 1 in 50 per year",
        odds := some 0.035 }) ∧
    (50 < s → s ≤ 70 → scoreToOdds (some s) k =
      { text := "~5–15%", detail := "Roughly 1 in 7 to 1 in 20 per year",
        odds := some 0.1 }) ∧
    (70 < s → s ≤ 85 → scoreToOdds (some s) k =
      { text := "~15–30%", detail := "Roughly 1 in 3 to 1 in 7 per year",
        odds := some 0.225 }) ∧
    (85 < s → scoreToOdds (some s) k =
      { text := "> 30%", detail := "Greater than 1 in 3 chance per year",
        odds := some 0.4 }) := by
  have hneg : ¬ s < 0 := not_lt.mpr h0
  refine ⟨?_, ?_, ?_, ?_, ?_, ?_, ?_⟩
  · intro h5
    simp [scoreToOdds, hneg, h5]
  · intro h5 h15
    have hn5 : ¬ s ≤ 5 := not_le.mpr h5
    simp [scoreToOdds, hneg, hn5, h15]
  · intro h15 h30
    have hn5 : ¬ s ≤ 5 := by linarith
    have hn15 : ¬ s ≤ 15 := not_le.mpr h15
    simp [scoreToOdds, hneg, hn5, hn15, h30]
  · intro h30 h50
    have hn5 : ¬ s ≤ 5 := by linarith
    have hn15 : ¬ s ≤ 15 := by linarith
    have hn30 : ¬ s ≤ 30 := not_le.mpr h30
    simp [scoreToOdds, hneg, hn5, hn15, hn30, h50]
  · intro h50 h70
    have hn5 : ¬ s ≤ 5 := by linarith
    have hn15 : ¬ s ≤ 15 := by linarith
    have hn30 : ¬ s ≤ 30 := by linarith
    have hn50 : ¬ s ≤ 50 := not_le.mpr h50
    simp [scoreToOdds, hneg, hn5, hn15, hn30, hn50, h70]
  · intro h70 h85
    have hn5 : ¬ s ≤ 5 := by linarith
    have hn15 : ¬ s ≤ 15 := by linarith
    have hn30 : ¬ s ≤ 30 := by linarith
    have hn50 : ¬ s ≤ 50 := by linarith
    have hn70 : ¬ s ≤ 70 := not_le.mpr h70
    simp [scoreToOdds, hneg, hn5, hn15, hn30, hn50, hn70, h85]
  · intro h85
    have hn5 : ¬ s ≤ 5 := by linarith
    have hn15 : ¬ s ≤ 15 := by linarith
    have hn30 : ¬ s ≤ 30 := by linarith
    have hn50 : ¬ s ≤ 50 := by linarith
    have hn70 : ¬ s ≤ 70 := by linarith
    have hn85 : ¬ s ≤ 85 := not_le.mpr h85
    simp [scoreToOdds, hneg, hn5, hn15, hn30, hn50, hn70, hn85]

/-- Witness for C2: score 0 and each listed boundary score (5, 15, 30, 50,
70, 85, 100) falls in the bucket the table names for it. -/
theorem scoreToOdds_buckets_witness :
    (scoreToOdds (some 0) ("ERQK")).text = "< 0.1%" ∧
    (scoreToOdds (some 5) ("ERQK")).text = "< 0.1%" ∧
    (scoreToOdds (some 15) ("ERQK")).text = "~0.1–0.5%" ∧
    (scoreToOdds (some 30) ("ERQK")).text = "~0.5–2%" ∧
    (scoreToOdds (some 50) ("ERQK")).text = "~2–5%" ∧
    (scoreToOdds (some 70) ("ERQK")).text = "~5–15%" ∧
    (scoreToOdds (some 85) ("ERQK")).text = "~15–30%" ∧
    (scoreToOdds (some 100) ("ERQK")).text = "> 30%" := by
  refine ⟨?_, ?_, ?_, ?_, ?_, ?_, ?_, ?_⟩
  · exact congrArg OddsDescriptor.text
      ((scoreToOdds_buckets 0 ("ERQK") (by norm_num)).1 (by norm_num))
  · exact congrArg OddsDescriptor.text
      ((scoreToOdds_buckets 5 ("ERQK") (by norm_num)).1 (by norm_num))
  · exact congrArg OddsDescriptor.text
      ((scoreToOdds_buckets 15 ("ERQK") (by norm_num)).2.1 (by norm_num) (by norm_num))
  · exact congrArg OddsDescriptor.text
      ((scoreToOdds_buckets 30 ("ERQK") (by norm_num)).2.2.1 (by norm_num) (by norm_num))
  · exact congrArg OddsDescriptor.text
      ((scoreToOdds_buckets 50 ("ERQK") (by norm_num)).2.2.2.1 (by norm_num) (by norm_num))
  · exact congrArg OddsDescriptor.text
      ((scoreToOdds_buckets 70 ("ERQK") (by norm_num)).2.2.2.2.1 (by norm_num) (by norm_num))
  · exact congrArg OddsDescriptor.text
      ((scoreToOdds_buckets 85 ("ERQK") (by norm_num)).2.2.2.2.2.1 (by norm_num) (by norm_num))
  · exact congrArg OddsDescriptor.text
      ((scoreToOdds_buckets 100 ("ERQK") (by norm_num)).2.2.2.2.2.2 (by norm_num))

/-- Claim C8: for every absent or negative score, `getRiskRating` returns the
distinguished "No Data" band (label "No Data", neutral color, not one of the
five ordered tiers), and `scoreToOdds` returns the insufficient-data
descriptor with empty detail and no odds value. -/
theorem noData_band_and_odds (s : ℚ) (hneg : s < 0) (k : String) :
    getRiskRating none = noDataBand ∧
    getRiskRating (some s) = noDataBand ∧
    noDataBand.label = "No Data" ∧
    noDataBand.color = "#95a5a6" ∧
    (∀ r ∈ RISK_RATINGS, r.label ≠ noDataBand.label) ∧
    scoreToOdds none k = { text := "Insufficient data", detail := "", odds := none } ∧
    scoreToOdds (some s) k = { text := "Insufficient data", detail := "", odds := none } := by
  refine ⟨rfl, ?_, rfl, rfl, by decide, rfl, ?_⟩
  · simp [getRiskRating, hneg]
  · simp [scoreToOdds, hneg]

/-- Witness for C8: the absent score and the score -1 both give the "No Data"
band and the insufficient-data descriptor. -/
theorem noData_band_and_odds_witness :
    getRiskRating (some (-1)) = noDataBand ∧
    (scoreToOdds (some (-1)) ("ERQK")).text = "Insufficient data" :=
  ⟨(noData_band_and_odds (-1) (by norm_num) ("ERQK")).2.1,
   congrArg OddsDescriptor.text
     (noData_band_and_odds (-1) (by norm_num) ("ERQK")).2.2.2.2.2.2⟩

/-- Claim C10: the result of `scoreToOdds` depends only on the score and not
on the hazard key — the probability bucket mapping is identical across all
hazard types. -/
theorem scoreToOdds_ignores_hazard (s : Option ℚ) (k1 k2 : String) :
    scoreToOdds s k1 = scoreToOdds s k2 := rfl

/-- Claim C6: `fetchNRIData` raises the error carrying the HTTP status
exactly when the response status is not a success status, raises the
"No NRI data found for this county." error exactly when the response
contains zero matching records, and otherwise returns exactly the first
record of the returned record array. -/
theorem fetchNRIData_cases (resp : NriResponse) :
    (fetchNRIData resp = Except.error ("FEMA API error: " ++ toString resp.status) ↔
      isOkStatus resp.status = false) ∧
    (fetchNRIData resp = Except.error ("No NRI data found for this county.") ↔
      (isOkStatus resp.status = true ∧ nriRecords resp = [])) ∧
    (∀ r rs, isOkStatus resp.status = true → nriRecords resp = r :: rs →
      fetchNRIData resp = Except.ok r) := by
  obtain ⟨status, data⟩ := resp
  cases hok : isOkStatus status <;>
    rcases data with _ | (_ | ⟨r, rs⟩) <;>
    simp [fetchNRIData, nriRecords, hok, femaMsg_ne status, (femaMsg_ne status).symm]

/-- Witness for C6: a 500 status yields the status-carrying error, an empty
record array yields the no-data error, and a nonempty array yields its first
record. -/
theorem fetchNRIData_cases_witness :
    fetchNRIData { status := 500, NriCountyData := some [] } =
      Except.error ("FEMA API error: " ++ toString 500) ∧
    fetchNRIData { status := 200, NriCountyData := some [] } =
      Except.error ("No NRI data found for this county.") ∧
    fetchNRIData { status := 200, NriCountyData := some [sampleRecord] } =
      Except.ok sampleRecord := by
  refine ⟨?_, ?_, ?_⟩
  · exact (fetchNRIData_cases _).1.mpr (by decide)
  · exact (fetchNRIData_cases _).2.1.mpr ⟨by decide, rfl⟩
  · exact (fetchNRIData_cases _).2.2 _ [] (by decide) rfl

/-- Claim C5: `zipToCountyFips` fails in exactly three mutually
distinguishable ways and otherwise succeeds — a non-success HTTP status
raises the service-unavailable error, a success response with zero address
matches raises the no-location error, a match with no county geography
raises the no-county error, and otherwise it returns a `CountyLocation`
built from the first address match and the first county of that match's
geography set. -/
theorem zipToCountyFips_cases (resp : GeoResponse) :
    (isOkStatus resp.status = false →
      zipToCountyFips resp = Except.error ("Geocoding service unavailable")) ∧
    (isOkStatus resp.status = true → geoMatches resp = [] →
      zipToCountyFips resp =
        Except.error ("Could not find location for this ZIP code. Please check and try again.")) ∧
    (∀ m ms, isOkStatus resp.status = true → geoMatches resp = m :: ms →
      matchCounties m = [] →
      zipToCountyFips resp =
        Except.error ("Could not determine county for this ZIP code.")) ∧
    (∀ m ms c cs, isOkStatus resp.status = true → geoMatches resp = m :: ms →
      matchCounties m = c :: cs →
      zipToCountyFips resp = Except.ok
        { fips := c.STATE ++ c.COUNTY, countyName := c.NAME,
          stateName := m.addressComponents.bind (fun a => a.state),
          lat := m.coordinates.y, lng := m.coordinates.x,
          matchedAddress := m.matchedAddress }) ∧
    (("Geocoding service unavailable" : String) ≠
        "Could not find location for this ZIP code. Please check and try again." ∧
     ("Geocoding service unavailable" : String) ≠
        "Could not determine county for this ZIP code." ∧
     ("Could not find location for this ZIP code. Please check and try again." : String) ≠
        "Could not determine county for this ZIP code.") := by
  refine ⟨?_, ?_, ?_, ?_, by decide, by decide, by decide⟩
  · intro hok
    simp [zipToCountyFips, hok]
  · intro hok hm
    rcases hres : resp.result.bind (fun r => r.addressMatches) with _ | ml
    · simp [zipToCountyFips, hok, hres]
    · simp only [geoMatches, hres, Option.getD_some] at hm
      subst hm
      simp [zipToCountyFips, hok, hres]
  · intro m ms hok hm hc
    rcases hres : resp.result.bind (fun r => r.addressMatches) with _ | ml
    · simp [geoMatches, hres] at hm
    · simp only [geoMatches, hres, Option.getD_some] at hm
      subst hm
      rcases hgeo : m.geographies.bind (fun g => g.Counties) with _ | cl
      · simp [zipToCountyFips, hok, hres, hgeo]
      · simp only [matchCounties, hgeo, Option.getD_some] at hc
        subst hc
        simp [zipToCountyFips, hok, hres, hgeo]
  · intro m ms c cs hok hm hc
    rcases hres : resp.result.bind (fun r => r.addressMatches) with _ | ml
    · simp [geoMatches, hres] at hm
    · simp only [geoMatches, hres, Option.getD_some] at hm
      subst hm
      rcases hgeo : m.geographies.bind (fun g => g.Counties) with _ | cl
      · simp [matchCounties, hgeo] at hc
      · simp only [matchCounties, hgeo, Option.getD_some] at hc
        subst hc
        simp [zipToCountyFips, hok, hres, hgeo]

/-- Witness for C5: one concrete response per failure mode and one success. -/
theorem zipToCountyFips_cases_witness :
    zipToCountyFips { status := 503, result := none } =
      Except.error ("Geocoding service unavailable") ∧
    zipToCountyFips { status := 200, result := some { addressMatches := some [] } } =
      Except.error ("Could not find location for this ZIP code. Please check and try again.") ∧
    zipToCountyFips { status := 200, result := some { addressMatches := some [sampleMatchNoCounty] } } =
      Except.error ("Could not determine county for this ZIP code.") ∧
    zipToCountyFips { status := 200, result := some { addressMatches := some [sampleMatch] } } =
      Except.ok sampleLocation := by
  refine ⟨?_, ?_, ?_, ?_⟩
  · exact (zipToCountyFips_cases _).1 (by decide)
  · exact (zipToCountyFips_cases _).2.1 (by decide) rfl
  · exact (zipToCountyFips_cases _).2.2.1 _ [] (by decide) rfl rfl
  · have h := (zipToCountyFips_cases sampleGeoResponse).2.2.2.1
      sampleMatch [] sampleCounty [] (by decide) rfl rfl
    exact h.trans (congrArg Except.ok (by decide))

/-- Every error thrown by `zipToCountyFips` carries a nonempty message. -/
lemma zipToCountyFips_error_ne_empty {resp : GeoResponse} {msg : String}
    (h : zipToCountyFips resp = Except.error msg) : msg ≠ "" := by
  unfold zipToCountyFips at h
  split at h
  · injection h with h'
    subst h'
    decide
  · split at h
    · injection h with h'
      subst h'
      decide
    · injection h with h'
      subst h'
      decide
    · split at h
      · injection h with h'
        subst h'
        decide
      · injection h with h'
        subst h'
        decide
      · cases h

/-- The component state before any search. -/
def initState : AppState :=
  { loading := false, error := none, locationInfo := none, nriData := none,
    expandedHazard := none, hasSearched := false }

/-- A component state holding the result of a previous successful session. -/
def staleState : AppState :=
  { loading := false, error := none, locationInfo := some sampleLocation,
    nriData := some sampleRecord, expandedHazard := none, hasSearched := true }

/-- Claim C3: every string the UI submits to `handleSearch` is the sanitised
digit string of the raw input; when it is not exactly five digits the session
ends failed with the validation message and no network call is issued, and
when it is exactly five digits validation passes and the location-resolution
call is the first call issued. -/
theorem handleSearch_validation (raw : String)
    (resolve : String → Except String CountyLocation)
    (fetchRisk : String → Except String NriRecord) (s0 : AppState) :
    (isFiveDigitZip (sanitizeZipInput raw) = false →
      handleSearch resolve fetchRisk (sanitizeZipInput raw) s0 =
        ({ s0 with error := some ("Please enter a valid 5-digit US ZIP code.") }, [])) ∧
    (isFiveDigitZip (sanitizeZipInput raw) = true →
      (handleSearch resolve fetchRisk (sanitizeZipInput raw) s0).2.head? =
        some (NetCall.geocode (sanitizeZipInput raw))) := by
  constructor
  · intro hv
    simp [handleSearch, jsTrim_sanitize, hv]
  · intro hv
    rcases hres : resolve (sanitizeZipInput raw) with msg | loc
    · simp [handleSearch, jsTrim_sanitize, hv, hres]
    · rcases hfet : fetchRisk loc.fips with m | nri <;>
        simp [handleSearch, jsTrim_sanitize, hv, hres, hfet]

/-- Witness for C3: the sanitised input "12a4" (four digits) is rejected
with no calls, and the sanitised input "90210" reaches the geocoding call. -/
theorem handleSearch_validation_witness :
    handleSearch (fun _ => Except.error ("boom")) (fun _ => Except.error ("boom"))
        (sanitizeZipInput ("12a4")) initState =
      ({ initState with error := some ("Please enter a valid 5-digit US ZIP code.") }, []) ∧
    (handleSearch (fun _ => Except.error ("boom")) (fun _ => Except.error ("boom"))
        (sanitizeZipInput ("90210")) initState).2.head? =
      some (NetCall.geocode (sanitizeZipInput ("90210"))) := by
  constructor
  · exact (handleSearch_validation ("12a4") _ _ initState).1 (by decide)
  · exact (handleSearch_validation ("90210") _ _ initState).2 (by decide)

/-- Claim C4: when the location-resolution step is `zipToCountyFips` over a
geocoder oracle and it throws, the orchestrator issues only the geocoding
call — never the risk-data fetch — and ends failed with the thrown message
verbatim; and for any resolver the issued calls are always a prefix of the
resolve-then-fetch sequence, short-circuiting on the first failure. -/
theorem handleSearch_resolve_fail (geoOracle : String → GeoResponse)
    (fetchRisk : String → Except String NriRecord)
    (zipCode : String) (s0 : AppState) :
    (∀ msg, isFiveDigitZip (jsTrim zipCode) = true →
      zipToCountyFips (geoOracle (jsTrim zipCode)) = Except.error msg →
      handleSearch (fun z => zipToCountyFips (geoOracle z)) fetchRisk zipCode s0 =
        ({ s0 with loading := false, error := some msg, nriData := none,
                   locationInfo := none, expandedHazard := none, hasSearched := true },
         [NetCall.geocode (jsTrim zipCode)])) ∧
    (∀ (resolve : String → Except String CountyLocation),
      (handleSearch resolve fetchRisk zipCode s0).2 = [] ∨
      (handleSearch resolve fetchRisk zipCode s0).2 = [NetCall.geocode (jsTrim zipCode)] ∨
      ∃ fips, (handleSearch resolve fetchRisk zipCode s0).2 =
        [NetCall.geocode (jsTrim zipCode), NetCall.nri fips]) := by
  constructor
  · intro msg hv hres
    have hne := zipToCountyFips_error_ne_empty hres
    simp [handleSearch, hv, hres, errMessage, hne]
  · intro resolve
    cases hv : isFiveDigitZip (jsTrim zipCode)
    · left
      simp [handleSearch, hv]
    · rcases hres : resolve (jsTrim zipCode) with msg | loc
      · right
        left
        simp [handleSearch, hv, hres]
      · right
        right
        refine ⟨loc.fips, ?_⟩
        rcases hfet : fetchRisk loc.fips with m | nri <;>
          simp [handleSearch, hv, hres, hfet]

/-- Witness for C4: with a geocoder oracle that always answers 503, the
session for "90210" issues only the geocoding call and surfaces the
service-unavailable message verbatim. -/
theorem handleSearch_resolve_fail_witness :
    handleSearch (fun z => zipToCountyFips ((fun _ => sampleDownResponse) z))
        (fun _ => Except.error ("boom")) ("90210") initState =
      ({ initState with loading := false, error := some ("Geocoding service unavailable"),
                        nriData := none, locationInfo := none, expandedHazard := none,
                        hasSearched := true },
       [NetCall.geocode (jsTrim ("90210"))]) :=
  (handleSearch_resolve_fail (fun _ => sampleDownResponse)
      (fun _ => Except.error ("boom")) ("90210") initState).1
    ("Geocoding service unavailable") (by decide) rfl

/-- Counterexample to claim C7 as stated: submitting the invalid input
"1234" right after a successful session ends the new session failed with the
validation message, yet the prior risk record and location survive in the
component state with `loading` false — the stale result stays visible next
to the error — so this submission did not discard prior session state. -/
theorem handleSearch_stale_cex :
    (handleSearch (fun _ => Except.error ("boom")) (fun _ => Except.error ("boom"))
        ("1234") staleState).1.error = some ("Please enter a valid 5-digit US ZIP code.") ∧
    (handleSearch (fun _ => Except.error ("boom")) (fun _ => Except.error ("boom"))
        ("1234") staleState).1.nriData = some sampleRecord ∧
    (handleSearch (fun _ => Except.error ("boom")) (fun _ => Except.error ("boom"))
        ("1234") staleState).1.locationInfo = some sampleLocation ∧
    (handleSearch (fun _ => Except.error ("boom")) (fun _ => Except.error ("boom"))
        ("1234") staleState).1.loading = false := by
  decide

/-- Claim C7 amended: a submission that passes the 5-digit validation
discards all prior session state before the network steps execute — the
final error, risk-record and location fields are independent of the prior
state — and such a session, when it ends failed, holds no risk record; a
submission failing validation returns early and leaves prior results
in place. -/
theorem handleSearch_clears_on_valid
    (resolve : String → Except String CountyLocation)
    (fetchRisk : String → Except String NriRecord)
    (zipCode : String) (s0 s0' : AppState)
    (hv : isFiveDigitZip (jsTrim zipCode) = true) :
    ((handleSearch resolve fetchRisk zipCode s0).1.error =
        (handleSearch resolve fetchRisk zipCode s0').1.error ∧
     (handleSearch resolve fetchRisk zipCode s0).1.nriData =
        (handleSearch resolve fetchRisk zipCode s0').1.nriData ∧
     (handleSearch resolve fetchRisk zipCode s0).1.locationInfo =
        (handleSearch resolve fetchRisk zipCode s0').1.locationInfo) ∧
    (∀ m, (handleSearch resolve fetchRisk zipCode s0).1.error = some m →
      (handleSearch resolve fetchRisk zipCode s0).1.nriData = none) := by
  rcases hres : resolve (jsTrim zipCode) with msg | loc
  · simp [handleSearch, hv, hres]
  · rcases hfet : fetchRisk loc.fips with m | nri <;>
      simp [handleSearch, hv, hres, hfet]

/-- Witness for C7 (amended): after a valid submission whose resolver fails,
the surviving record field is the same whether the previous session had a
result or not. -/
theorem handleSearch_clears_on_valid_witness :
    (handleSearch (fun _ => Except.error ("x")) (fun _ => Except.error ("y"))
        ("90210") staleState).1.nriData =
      (handleSearch (fun _ => Except.error ("x")) (fun _ => Except.error ("y"))
        ("90210") initState).1.nriData :=
  ((handleSearch_clears_on_valid (fun _ => Except.error ("x"))
      (fun _ => Except.error ("y")) ("90210") staleState initState (by decide)).1).2.1

/-- Claim C9 is violated by the code: while a lookup is in flight
(`loading = true`) the submit button does refuse a click, but
`handleKeyDown` does not consult the busy flag and still invokes
`handleSearch` on an "Enter" keypress, so a second session can start while
one is in flight. -/
theorem enter_bypasses_busy :
    submitButtonEnabled true = false ∧ handleKeyDown true ("Enter") = true := by
  decide

end DisasterRisk
